import Mathlib

/-!
Shallow embedding of the request-execution layer of `async-anthropic`
(src/client.rs), covering:

* the error taxonomy as used by `client.rs`,
* the response classifier `handle_response`,
* the retry driver of `Client::get` / `Client::post` (the `backon` retry
  loop with its `when` and `adjust` closures),
* the SSE event pump spawned by `stream`,
* the reconnect retry policy `RetryAfter::retry`.

Conventions: Rust `Duration` values are modelled as `Nat` nanoseconds,
`u64` seconds as plain `Nat`; fallible external operations (reading a
response body, JSON decoding) are modelled as `Except` values recorded in
the modelled exchange, with the underlying library errors
(`reqwest::Error`, `serde_json::Error`) abstracted to their display
strings.
-/

namespace AsyncAnthropic

/-- An opaque `reqwest::Error` (transport library error), abstracted to its
display string. -/
abbrev ReqwestError : Type := String

/-- An opaque `serde_json::Error` (JSON decode error), abstracted to its
display string. -/
abbrev SerdeError : Type := String

/-- The inner error object of the Anthropic wire envelope
(`src/errors.rs`, `ApiError`): an error type tag and an optional message. -/
structure ApiError where
  error_type : String
  message : Option String
deriving DecidableEq

/-- Modelled from the spec: the payload of a server-declared stream error.
Its declaration is not under `src/` (only its construction sites in
`src/client.rs` are, e.g. `StreamError { error_type, message, error }`);
spec §6 gives the shape "a JSON object with a type/message/optional
nested-error field". -/
structure StreamError where
  error_type : String
  message : Option String
  error : Option ApiError
deriving DecidableEq

/-- The classified-error vocabulary as used by `src/client.rs`
(`AnthropicError::NetworkError`, `BadRequest`, `Unauthorized`,
`RateLimit { retry_after }`, `Deserialization` via
`map_deserialization_error`, `StreamError`, `Unknown`).  The enum
declaration matching this usage is not in `src/errors.rs` (which holds an
alternate revision of the taxonomy); the variants here are exactly the
ones `client.rs` constructs and matches on, cf. spec §4.1. -/
inductive AnthropicError where
  | NetworkError (e : ReqwestError)
  | BadRequest (text : String)
  | Unauthorized
  | RateLimit (retry_after : Option Nat)
  | Deserialization (e : SerdeError)
  | StreamError (e : StreamError)
  | Unknown (text : String)
deriving DecidableEq

/-- `Duration::from_secs`, with durations as nanoseconds. -/
def durationFromSecs (n : Nat) : Nat := n * 1000000000

instance {e a : Type} [DecidableEq e] [DecidableEq a] : DecidableEq (Except e a) := fun x y =>
  match x, y with
  | Except.ok v, Except.ok w =>
    if h : v = w then Decidable.isTrue (by rw [h])
    else Decidable.isFalse (fun hh => h (Except.ok.inj hh))
  | Except.error v, Except.error w =>
    if h : v = w then Decidable.isTrue (by rw [h])
    else Decidable.isFalse (fun hh => h (Except.error.inj hh))
  | Except.ok _, Except.error _ => Decidable.isFalse (fun hh => Except.noConfusion hh)
  | Except.error _, Except.ok _ => Decidable.isFalse (fun hh => Except.noConfusion hh)

/-- `s.parse::<u64>().ok()`: Rust's decimal `u64` parser — an optional
leading `+`, then one or more ASCII digits, with the value below `2^64`;
`none` on anything else. -/
def parseU64 (s : String) : Option Nat :=
  let ds := match s.data with
    | '+' :: l => l
    | l => l
  if ds ≠ [] ∧ ds.all Char.isDigit then
    let n := ds.foldl (fun acc c => acc * 10 + (c.toNat - 48)) 0
    if n < 2 ^ 64 then some n else none
  else none

/-- A completed HTTP exchange as `handle_response` observes it: the status
code, the `Retry-After` header if present, and the results of the two
body-consuming operations the code may perform — `response.text()`
(`bodyText`) and `response.json::<O>()` (`jsonBody`), either of which can
fail with a `reqwest::Error`. -/
structure HttpResponse (O : Type) where
  status : Nat
  retryAfterHeader : Option String
  bodyText : Except ReqwestError String
  jsonBody : Except ReqwestError O

/-- `handle_response` (src/client.rs 256-303): classify a completed
exchange.  200 decodes the body as `O` (decode failure mapped to
`NetworkError`, as `response.json()` yields a `reqwest::Error`); 400 reads
the body text into `BadRequest`; 401 is `Unauthorized` with no body read;
429 and 529 read the `Retry-After` header as integer seconds and the body
text, yielding `RateLimit`; anything else reads the body text into
`Unknown`.  A failed body read surfaces as `NetworkError`. -/
def handleResponse {O : Type} (r : HttpResponse O) : Except AnthropicError O :=
  if r.status = 200 then
    match r.jsonBody with
    | Except.ok o => Except.ok o
    | Except.error e => Except.error (AnthropicError.NetworkError e)
  else if r.status = 400 then
    match r.bodyText with
    | Except.ok t => Except.error (AnthropicError.BadRequest t)
    | Except.error e => Except.error (AnthropicError.NetworkError e)
  else if r.status = 401 then
    Except.error AnthropicError.Unauthorized
  else if r.status = 429 ∨ r.status = 529 then
    let retryAfter := r.retryAfterHeader.bind parseU64
    match r.bodyText with
    | Except.ok _ => Except.error (AnthropicError.RateLimit retryAfter)
    | Except.error e => Except.error (AnthropicError.NetworkError e)
  else
    match r.bodyText with
    | Except.ok t => Except.error (AnthropicError.Unknown t)
    | Except.error e => Except.error (AnthropicError.NetworkError e)

/-- The `when` closure of the retry wiring shared by `Client::get` and
`Client::post`: `matches!(e, AnthropicError::RateLimit { .. })` — only a
rate-limit error is retryable. -/
def clientWhen : AnthropicError → Bool
  | AnthropicError.RateLimit _ => true
  | _ => false

/-- The `adjust` closure of the retry wiring shared by `Client::get` and
`Client::post`: on a `RateLimit` error,
`retry_after.map(Duration::from_secs).or(dur)` — the server-provided
retry-after wins over the backoff-computed delay `dur`; on any other error
the computed delay is kept. -/
def clientAdjust : AnthropicError → Option Nat → Option Nat
  | AnthropicError.RateLimit retryAfter, dur =>
    match retryAfter.map durationFromSecs with
    | some d => some d
    | none => dur
  | _, dur => dur

/-- Observable outcome of one `backon` retry loop: the final result (`none`
only when the modelled list of attempt outcomes is exhausted), the sleeps
performed between attempts (in order), and the number of network attempts
consumed. -/
structure RetryOutcome (O : Type) where
  result : Option (Except AnthropicError O)
  sleeps : List Nat
  attempts : Nat

/-- The `backon` retry loop driving `Client::get` / `Client::post`
(src/client.rs 157-167 and 194-204): run successive attempt outcomes
(`attempts`, each the result of one network attempt classified by
`handle_response`); `Ok` returns immediately; an error retries only when
`when` accepts it and `adjust` applied to the backoff iterator's next
delay (`delays i`, `none` once attempts are exhausted) yields a delay to
sleep; otherwise the error is returned. -/
def retryLoop {O : Type} (whenP : AnthropicError → Bool)
    (adjust : AnthropicError → Option Nat → Option Nat)
    (delays : Nat → Option Nat) :
    Nat → List (Except AnthropicError O) → RetryOutcome O
  | _, [] => ⟨none, [], 0⟩
  | _, Except.ok o :: _ => ⟨some (Except.ok o), [], 1⟩
  | i, Except.error e :: rest =>
    if whenP e then
      match adjust e (delays i) with
      | some dur =>
        let k := retryLoop whenP adjust delays (i + 1) rest
        ⟨k.result, dur :: k.sleeps, k.attempts + 1⟩
      | none => ⟨some (Except.error e), [], 1⟩
    else ⟨some (Except.error e), [], 1⟩

/-- One SSE message frame (`reqwest_eventsource::Event::Message`): the
event name and the data payload. -/
structure MessageEvent where
  event : String
  data : String
deriving DecidableEq

/-- The `reqwest_eventsource::Error` shapes `stream` and
`RetryAfter::retry` distinguish: an invalid-status-code response, an
invalid-content-type response (both carrying the rejected response), a
clean end of stream, and any other transport error abstracted to its
display string. -/
inductive EventSourceError (O : Type) where
  | invalidStatus (r : HttpResponse O)
  | invalidContentType (r : HttpResponse O)
  | streamEnded
  | transport (msg : String)

/-- One item the SSE transport hands to the pump's
`event_source.next()` loop: an `Open` notification, a message frame, or a
transport fault. -/
inductive SseEvent (O : Type) where
  | opened
  | message (m : MessageEvent)
  | fault (e : EventSourceError O)

/-- The per-message classification inside `stream`'s pump
(src/client.rs 329-355): `ping` is swallowed (`none`); an `error`-named
event decodes as `StreamError` (decode failure → `Deserialization`); an
allow-listed event decodes as `O` (decode failure → `Deserialization`);
any other name yields an `unknown_event_type` stream error.  JSON decoding
(`serde_json::from_str`) is passed in as `decodeO` / `decodeErr`. -/
def processMessage {O : Type} (decodeO : String → Except SerdeError O)
    (decodeErr : String → Except SerdeError StreamError)
    (eventTypes : List String) (m : MessageEvent) :
    Option (Except AnthropicError O) :=
  if m.event = "ping" then
    none
  else if m.event = "error" then
    some (match decodeErr m.data with
      | Except.ok e => Except.error (AnthropicError.StreamError e)
      | Except.error e => Except.error (AnthropicError.Deserialization e))
  else if eventTypes.contains m.event then
    some (match decodeO m.data with
      | Except.ok o => Except.ok o
      | Except.error e => Except.error (AnthropicError.Deserialization e))
  else
    some (Except.error (AnthropicError.StreamError
      ⟨"unknown_event_type", some ("Unknown event type: " ++ m.event), none⟩))

/-- The event pump `stream` spawns (src/client.rs 322-389), as a function
from the sequence of transport events to the sequence of items sent to
the consumer, for a consumer that never drops the receiver (so `tx.send`
never fails).  `Open` is skipped; a message's classified item is sent and,
when it is an error, the loop breaks (`cancel`); `StreamEnded` breaks with
nothing sent; an invalid-status/content-type fault sends
`handle_response(response)` and continues; any other fault sends an
`sse_error` stream error and continues. -/
def pump {O : Type} (decodeO : String → Except SerdeError O)
    (decodeErr : String → Except SerdeError StreamError)
    (eventTypes : List String) :
    List (SseEvent O) → List (Except AnthropicError O)
  | [] => []
  | SseEvent.opened :: rest => pump decodeO decodeErr eventTypes rest
  | SseEvent.message m :: rest =>
    match processMessage decodeO decodeErr eventTypes m with
    | none => pump decodeO decodeErr eventTypes rest
    | some (Except.ok o) => Except.ok o :: pump decodeO decodeErr eventTypes rest
    | some (Except.error e) => [Except.error e]
  | SseEvent.fault (EventSourceError.streamEnded) :: _ => []
  | SseEvent.fault (EventSourceError.invalidStatus r) :: rest =>
    handleResponse r :: pump decodeO decodeErr eventTypes rest
  | SseEvent.fault (EventSourceError.invalidContentType r) :: rest =>
    handleResponse r :: pump decodeO decodeErr eventTypes rest
  | SseEvent.fault (EventSourceError.transport msg) :: rest =>
    Except.error (AnthropicError.StreamError ⟨"sse_error", some msg, none⟩)
      :: pump decodeO decodeErr eventTypes rest

/-- Kind of a tokio mpsc channel: bounded with a capacity, or unbounded. -/
inductive ChannelKind where
  | bounded (capacity : Nat)
  | unbounded
deriving DecidableEq

/-- The producer→consumer hand-off channel `stream` creates
(src/client.rs 313): `tokio::sync::mpsc::unbounded_channel()`. -/
def streamChannelKind : ChannelKind := ChannelKind.unbounded

/-- `RetryAfter::retry` (src/client.rs 233-249), the reconnect policy
installed on the event source: for an `InvalidStatusCode` fault, the
`Retry-After` header parsed as integer seconds when present and parseable;
falling back (`.or`) to the wrapped exponential backoff's decision
`backoffRetry error lastRetry` in every other case.  The wrapped policy is
a parameter; `lastRetry` is the reconnect policy's own
`(retry count, last duration)` state. -/
def retryAfterRetry {O : Type}
    (backoffRetry : EventSourceError O → Option (Nat × Nat) → Option Nat)
    (error : EventSourceError O) (lastRetry : Option (Nat × Nat)) : Option Nat :=
  match (match error with
    | EventSourceError.invalidStatus r =>
      (r.retryAfterHeader.bind parseU64).map durationFromSecs
    | _ => none) with
  | some d => some d
  | none => backoffRetry error lastRetry

/-! Concrete instantiations used by witnesses and counterexamples: a
sample item decoder (items are `Nat`, payloads their decimal strings, so
a non-numeric payload models malformed JSON) and a sample stream-error
decoder recognising the overloaded-error body. -/

/-- Sample `serde_json::from_str::<O>` with `O := Nat`: the payloads
`"1"` and `"2"` decode, anything else is a decode error (modelling
malformed JSON). -/
def decodeNatSample : String → Except SerdeError Nat := fun s =>
  if s = "1" then Except.ok 1
  else if s = "2" then Except.ok 2
  else Except.error ("expected a number")

/-- The server error body `{"type":"overloaded_error","message":"Overloaded"}`. -/
def overloadedBody : String :=
  "\x7b\"type\":\"overloaded_error\",\"message\":\"Overloaded\"\x7d"

/-- The decoded form of `overloadedBody`. -/
def overloadedStreamError : StreamError :=
  ⟨("overloaded_error"), some ("Overloaded"), none⟩

/-- Sample `serde_json::from_str::<StreamError>`: recognises exactly the
overloaded-error body. -/
def decodeStreamErrSample : String → Except SerdeError StreamError := fun s =>
  if s = overloadedBody then Except.ok overloadedStreamError
  else Except.error ("invalid stream error payload")

/-- A backoff-delay iterator that always yields one second. -/
def oneSecondDelays : Nat → Option Nat := fun _ => some (durationFromSecs 1)

/-- C1: in the retry loop of `Client::post` / `Client::get`, a rate-limit
error carrying `retry_after = some n` makes the retrier sleep exactly
`n` seconds before the next attempt, whatever the backoff policy computed
(first conjunct, for every delay iterator); a rate-limit error with no
retry-after makes it sleep the backoff-computed delay for the current
attempt index (second conjunct). -/
theorem rateLimit_sleep_honors_retry_after {O : Type}
    (delays : Nat → Option Nat) (i n d : Nat)
    (rest : List (Except AnthropicError O)) (h : delays i = some d) :
    (∀ delays' : Nat → Option Nat,
      (retryLoop clientWhen clientAdjust delays' i
        (Except.error (AnthropicError.RateLimit (some n)) :: rest)).sleeps.head?
        = some (durationFromSecs n))
    ∧ (retryLoop clientWhen clientAdjust delays i
        (Except.error (AnthropicError.RateLimit none) :: rest)).sleeps.head?
        = some d := by
  constructor
  · intro delays'
    simp [retryLoop, clientWhen, clientAdjust]
  · simp [retryLoop, clientWhen, clientAdjust, h]

/-- Witness for C1 at a concrete input: retry-after 5 wins over the
1-second computed delay; with no retry-after the 1-second computed delay
is slept. -/
theorem rateLimit_sleep_honors_retry_after_witness :
    oneSecondDelays 0 = some (durationFromSecs 1)
    ∧ ((∀ delays' : Nat → Option Nat,
        (retryLoop clientWhen clientAdjust delays' 0
          (Except.error (AnthropicError.RateLimit (some 5)) :: [Except.ok (0 : Nat)])).sleeps.head?
          = some (durationFromSecs 5))
      ∧ (retryLoop clientWhen clientAdjust oneSecondDelays 0
          (Except.error (AnthropicError.RateLimit none) :: [Except.ok (0 : Nat)])).sleeps.head?
          = some (durationFromSecs 1)) :=
  ⟨rfl, rateLimit_sleep_honors_retry_after oneSecondDelays 0 5 (durationFromSecs 1)
    [Except.ok (0 : Nat)] rfl⟩

/-- A 401 exchange: `handle_response` never reads its body. -/
def resp401 : HttpResponse Nat :=
  ⟨401, none, Except.ok ("unused"), Except.error ("unused")⟩

/-- C2: in `Client::post` / `Client::get`, the retry predicate accepts
exactly the rate-limit errors (first conjunct); any non-retryable error
and any `Ok` terminate the loop after exactly one attempt with no sleep
(second and third conjuncts); and a 401 response classifies as
`Unauthorized` and terminates after exactly one attempt (last two
conjuncts). -/
theorem only_rateLimit_is_retried {O : Type}
    (delays : Nat → Option Nat) (i : Nat) (e : AnthropicError)
    (rest : List (Except AnthropicError O)) (r : HttpResponse O)
    (hne : clientWhen e = false) (h401 : r.status = 401) :
    (∀ e', clientWhen e' = true ↔ ∃ ra, e' = AnthropicError.RateLimit ra)
    ∧ retryLoop clientWhen clientAdjust delays i (Except.error e :: rest)
        = ⟨some (Except.error e), [], 1⟩
    ∧ (∀ o : O, retryLoop clientWhen clientAdjust delays i (Except.ok o :: rest)
        = ⟨some (Except.ok o), [], 1⟩)
    ∧ handleResponse r = Except.error AnthropicError.Unauthorized
    ∧ retryLoop clientWhen clientAdjust delays i (handleResponse r :: rest)
        = ⟨some (Except.error AnthropicError.Unauthorized), [], 1⟩ := by
  have hhr : handleResponse r = Except.error AnthropicError.Unauthorized := by
    simp [handleResponse, h401]
  refine ⟨?_, ?_, ?_, hhr, ?_⟩
  · intro e'
    cases e' <;> simp [clientWhen]
  · simp [retryLoop, hne]
  · intro o
    simp [retryLoop]
  · rw [hhr]
    simp [retryLoop, clientWhen]

/-- Witness for C2 at a concrete input: `Unauthorized` is not retryable,
and a 401 exchange terminates in one attempt. -/
theorem only_rateLimit_is_retried_witness :
    clientWhen AnthropicError.Unauthorized = false ∧ resp401.status = 401
    ∧ ((∀ e', clientWhen e' = true ↔ ∃ ra, e' = AnthropicError.RateLimit ra)
      ∧ retryLoop clientWhen clientAdjust oneSecondDelays 0
          (Except.error AnthropicError.Unauthorized :: ([] : List (Except AnthropicError Nat)))
          = ⟨some (Except.error AnthropicError.Unauthorized), [], 1⟩
      ∧ (∀ o : Nat, retryLoop clientWhen clientAdjust oneSecondDelays 0 (Except.ok o :: [])
          = ⟨some (Except.ok o), [], 1⟩)
      ∧ handleResponse resp401 = Except.error AnthropicError.Unauthorized
      ∧ retryLoop clientWhen clientAdjust oneSecondDelays 0 (handleResponse resp401 :: [])
          = ⟨some (Except.error AnthropicError.Unauthorized), [], 1⟩) :=
  ⟨rfl, rfl, only_rateLimit_is_retried oneSecondDelays 0 AnthropicError.Unauthorized []
    resp401 rfl rfl⟩

/-- Is a classification result a `Deserialization` error? -/
def isDeserializationResult {O : Type} : Except AnthropicError O → Bool
  | Except.error (AnthropicError.Deserialization _) => true
  | _ => false

/-- A 200 exchange whose body fails to decode as the expected type:
`response.json::<O>()` fails with a `reqwest::Error`. -/
def resp200badJson : HttpResponse Nat :=
  ⟨200, none, Except.ok ("not the expected shape"), Except.error ("error decoding response body")⟩

/-- C4 counterexample: on a 200 exchange whose body fails to decode,
`handle_response` returns `NetworkError` (wrapping the transport
library's decode error), not a `Deserialization` error carrying the raw
body. -/
theorem status200_decode_failure_not_deserialization :
    handleResponse resp200badJson
      = Except.error (AnthropicError.NetworkError ("error decoding response body"))
    ∧ isDeserializationResult (handleResponse resp200badJson) = false := by
  constructor <;> rfl

/-- C4 amended: for every 200 exchange whose body fails to decode,
`handle_response` returns `NetworkError` wrapping the decode error
produced by `response.json()`; the raw body is not attached. -/
theorem status200_decode_failure_is_network_error {O : Type}
    (r : HttpResponse O) (e : ReqwestError)
    (h1 : r.status = 200) (h2 : r.jsonBody = Except.error e) :
    handleResponse r = Except.error (AnthropicError.NetworkError e) := by
  simp [handleResponse, h1, h2]

/-- Witness for the amended C4 at the concrete 200 exchange. -/
theorem status200_decode_failure_is_network_error_witness :
    resp200badJson.status = 200
    ∧ resp200badJson.jsonBody = Except.error ("error decoding response body")
    ∧ handleResponse resp200badJson
      = Except.error (AnthropicError.NetworkError ("error decoding response body")) :=
  ⟨rfl, rfl, status200_decode_failure_is_network_error resp200badJson
    ("error decoding response body") rfl rfl⟩

/-- A 201 exchange with a readable body. -/
def resp201 : HttpResponse Nat :=
  ⟨201, none, Except.ok ("created"), Except.ok 7⟩

/-- A 200 exchange whose body decodes. -/
def resp200ok : HttpResponse Nat :=
  ⟨200, none, Except.ok (""), Except.ok 7⟩

/-- C10: `handle_response` classifies every status other than 200, 400,
401, 429 and 529 — including successful 2xx statuses like 201 or 204 —
as `Unknown` carrying the raw body text (first conjunct), and returns
`Ok` only when the status is exactly 200 (second conjunct). -/
theorem non_special_status_is_unknown {O : Type}
    (r s : HttpResponse O) (t : String) (o : O)
    (h1 : r.status ≠ 200) (h2 : r.status ≠ 400) (h3 : r.status ≠ 401)
    (h4 : r.status ≠ 429) (h5 : r.status ≠ 529)
    (h6 : r.bodyText = Except.ok t)
    (hs : handleResponse s = Except.ok o) :
    handleResponse r = Except.error (AnthropicError.Unknown t)
    ∧ s.status = 200 := by
  constructor
  · simp [handleResponse, h1, h2, h3, h4, h5, h6]
  · by_contra hne
    unfold handleResponse at hs
    rw [if_neg hne] at hs
    split at hs <;> (try split at hs) <;> (try split at hs) <;> (try split at hs) <;> simp_all

/-- Witness for C10: a 201 response with body `"created"` is classified
`Unknown "created"`, and a decodable 200 response is the `Ok` case. -/
theorem non_special_status_is_unknown_witness :
    resp201.status ≠ 200 ∧ resp201.status ≠ 400 ∧ resp201.status ≠ 401
    ∧ resp201.status ≠ 429 ∧ resp201.status ≠ 529
    ∧ resp201.bodyText = Except.ok ("created")
    ∧ handleResponse resp200ok = Except.ok 7
    ∧ (handleResponse resp201 = Except.error (AnthropicError.Unknown ("created"))
      ∧ resp200ok.status = 200) :=
  ⟨by decide, by decide, by decide, by decide, by decide, rfl, rfl,
    non_special_status_is_unknown resp201 resp200ok ("created") 7
      (by decide) (by decide) (by decide) (by decide) (by decide) rfl rfl⟩

/-- C7: a stream whose transport delivers only `ping`-named events (any
number, any payloads) followed by a clean end of stream surfaces nothing
to the consumer: no event item and no error item. -/
theorem ping_only_stream_is_empty {O : Type}
    (decodeO : String → Except SerdeError O)
    (decodeErr : String → Except SerdeError StreamError)
    (eventTypes : List String) (ds : List String) :
    pump decodeO decodeErr eventTypes
      (ds.map (fun d => SseEvent.message ⟨("ping"), d⟩)
        ++ [SseEvent.fault EventSourceError.streamEnded]) = [] := by
  induction ds with
  | nil => rfl
  | cons d ds ih => simpa [pump, processMessage] using ih

/-- C5: a named `error` event whose data decodes as the stream-error
shape yields exactly one item — the server-declared stream error — and
the pump breaks: whatever the transport would deliver afterwards, no
further item reaches the consumer. -/
theorem named_error_event_is_terminal {O : Type}
    (decodeO : String → Except SerdeError O)
    (decodeErr : String → Except SerdeError StreamError)
    (eventTypes : List String) (d : String) (e : StreamError)
    (rest : List (SseEvent O))
    (h : decodeErr d = Except.ok e) :
    pump decodeO decodeErr eventTypes (SseEvent.message ⟨("error"), d⟩ :: rest)
      = [Except.error (AnthropicError.StreamError e)] := by
  simp [pump, processMessage, h]

/-- Witness for C5: the overloaded-error body yields one
`StreamError`-classified item; a trailing transport event is never
processed. -/
theorem named_error_event_is_terminal_witness :
    decodeStreamErrSample overloadedBody = Except.ok overloadedStreamError
    ∧ pump decodeNatSample decodeStreamErrSample ([("message_start")])
        (SseEvent.message ⟨("error"), overloadedBody⟩
          :: [SseEvent.fault (EventSourceError.transport ("ignored"))])
      = [Except.error (AnthropicError.StreamError overloadedStreamError)] :=
  ⟨by simp [decodeStreamErrSample],
    named_error_event_is_terminal decodeNatSample decodeStreamErrSample
      ([("message_start")]) overloadedBody overloadedStreamError
      [SseEvent.fault (EventSourceError.transport ("ignored"))]
      (by simp [decodeStreamErrSample])⟩

/-- C6: one allow-listed event with decodable payload followed by an
allow-listed event with a malformed payload yields exactly two items —
the decoded event, then a `Deserialization` error — and the pump breaks:
no third item, whatever the transport would deliver afterwards. -/
theorem decode_failure_fail_closes {O : Type}
    (decodeO : String → Except SerdeError O)
    (decodeErr : String → Except SerdeError StreamError)
    (eventTypes : List String) (m1 m2 : MessageEvent) (o : O)
    (err : SerdeError) (rest : List (SseEvent O))
    (h1 : m1.event ≠ "ping") (h2 : m1.event ≠ "error")
    (h3 : m1.event ∈ eventTypes)
    (h4 : decodeO m1.data = Except.ok o)
    (h5 : m2.event ≠ "ping") (h6 : m2.event ≠ "error")
    (h7 : m2.event ∈ eventTypes)
    (h8 : decodeO m2.data = Except.error err) :
    pump decodeO decodeErr eventTypes (SseEvent.message m1 :: SseEvent.message m2 :: rest)
      = [Except.ok o, Except.error (AnthropicError.Deserialization err)] := by
  simp [pump, processMessage, h1, h2, h3, h4, h5, h6, h7, h8]

/-- Witness for C6: payload `"1"` decodes, payload `"nope"` does not; the
trailing valid event is never processed. -/
theorem decode_failure_fail_closes_witness :
    ("content_block_delta" : String) ≠ "ping" ∧ ("content_block_delta" : String) ≠ "error"
    ∧ ("content_block_delta" : String) ∈ [("content_block_delta")]
    ∧ decodeNatSample ("1") = Except.ok 1
    ∧ decodeNatSample ("nope") = Except.error ("expected a number")
    ∧ pump decodeNatSample decodeStreamErrSample ([("content_block_delta")])
        (SseEvent.message ⟨("content_block_delta"), ("1")⟩
          :: SseEvent.message ⟨("content_block_delta"), ("nope")⟩
          :: [SseEvent.message ⟨("content_block_delta"), ("2")⟩])
      = [Except.ok 1, Except.error (AnthropicError.Deserialization ("expected a number"))] :=
  ⟨by decide, by decide, by decide, rfl, rfl,
    decode_failure_fail_closes decodeNatSample decodeStreamErrSample
      ([("content_block_delta")]) ⟨("content_block_delta"), ("1")⟩
      ⟨("content_block_delta"), ("nope")⟩ 1 ("expected a number")
      [SseEvent.message ⟨("content_block_delta"), ("2")⟩]
      (by decide) (by decide) (by decide) rfl (by decide) (by decide) (by decide) rfl⟩

/-- C3 counterexample: an error item is not always the last item.  A
transport-level fault sends an `sse_error` item and the pump loop
continues; after reconnection a further (valid) item is delivered.  The
consumer here sees an error item followed by an `Ok` item. -/
theorem transport_error_item_not_terminal :
    pump decodeNatSample decodeStreamErrSample ([("content_block_delta")])
      ([SseEvent.fault (EventSourceError.transport ("connection reset")),
        SseEvent.message ⟨("content_block_delta"), ("1")⟩])
      = [Except.error (AnthropicError.StreamError
            ⟨("sse_error"), some ("connection reset"), none⟩),
         Except.ok 1] := by
  decide

/-- C3 amended: an error item that originates from an SSE *message*
event (server-declared error, decode failure, or unknown event name) is
always the last item — the pump breaks after sending it, whatever the
transport would deliver afterwards.  (Error items originating from
transport-level faults do not break the loop and may be followed by
further items, as the counterexample shows.) -/
theorem message_error_items_are_terminal {O : Type}
    (decodeO : String → Except SerdeError O)
    (decodeErr : String → Except SerdeError StreamError)
    (eventTypes : List String) (m : MessageEvent) (e : AnthropicError)
    (rest : List (SseEvent O))
    (h : processMessage decodeO decodeErr eventTypes m = some (Except.error e)) :
    pump decodeO decodeErr eventTypes (SseEvent.message m :: rest)
      = [Except.error e] := by
  simp [pump, h]

/-- Witness for the amended C3: an event named outside the allow-list
yields the `unknown_event_type` error as the sole and last item. -/
theorem message_error_items_are_terminal_witness :
    processMessage decodeNatSample decodeStreamErrSample ([("content_block_delta")])
      ⟨("bogus_event"), ("1")⟩
      = some (Except.error (AnthropicError.StreamError
          ⟨("unknown_event_type"), some ("Unknown event type: bogus_event"), none⟩))
    ∧ pump decodeNatSample decodeStreamErrSample ([("content_block_delta")])
        (SseEvent.message ⟨("bogus_event"), ("1")⟩
          :: [SseEvent.message ⟨("content_block_delta"), ("2")⟩])
      = [Except.error (AnthropicError.StreamError
          ⟨("unknown_event_type"), some ("Unknown event type: bogus_event"), none⟩)] :=
  ⟨by rfl,
    message_error_items_are_terminal decodeNatSample decodeStreamErrSample
      ([("content_block_delta")]) ⟨("bogus_event"), ("1")⟩
      (AnthropicError.StreamError
        ⟨("unknown_event_type"), some ("Unknown event type: bogus_event"), none⟩)
      [SseEvent.message ⟨("content_block_delta"), ("2")⟩] (by rfl)⟩

/-- C8 counterexample: the hand-off channel between the pump and the
consumer is `tokio::sync::mpsc::unbounded_channel()` — unbounded, not a
bounded channel of any capacity. -/
theorem handoff_channel_not_bounded :
    streamChannelKind = ChannelKind.unbounded
    ∧ streamChannelKind ≠ ChannelKind.bounded 1 := by
  constructor
  · rfl
  · decide

/-- C8 amended: the hand-off channel is unbounded; items reach the
consumer in receipt order, but the producer is never back-pressured by
the consumer's pull rate — here it enqueues two items although the
consumer has pulled nothing (the pump model's sends always succeed
because the channel is unbounded). -/
theorem handoff_channel_unbounded_buffers_many :
    streamChannelKind = ChannelKind.unbounded
    ∧ (pump decodeNatSample decodeStreamErrSample ([("content_block_delta")])
        ([SseEvent.message ⟨("content_block_delta"), ("1")⟩,
          SseEvent.message ⟨("content_block_delta"), ("2")⟩])).length = 2 := by
  refine ⟨rfl, ?_⟩
  decide

/-- C9: the reconnect policy `RetryAfter::retry` sleeps the `Retry-After`
header value (parsed as integer seconds) for an invalid-status-code
fault whose header is present and parseable, whatever the wrapped
exponential backoff would decide (first conjunct); for an
invalid-status-code fault with no usable header, and for every other
fault kind, it defers to the wrapped backoff (remaining conjuncts). -/
theorem reconnect_delay_selection {O : Type}
    (backoffRetry : EventSourceError O → Option (Nat × Nat) → Option Nat)
    (r r' : HttpResponse O) (last1 last2 last3 last4 last5 : Option (Nat × Nat))
    (n : Nat) (msg : String)
    (h1 : r.retryAfterHeader.bind parseU64 = some n)
    (h2 : r'.retryAfterHeader.bind parseU64 = none) :
    retryAfterRetry backoffRetry (EventSourceError.invalidStatus r) last1
      = some (durationFromSecs n)
    ∧ retryAfterRetry backoffRetry (EventSourceError.invalidStatus r') last2
      = backoffRetry (EventSourceError.invalidStatus r') last2
    ∧ retryAfterRetry backoffRetry (EventSourceError.invalidContentType r) last3
      = backoffRetry (EventSourceError.invalidContentType r) last3
    ∧ retryAfterRetry backoffRetry (EventSourceError.transport msg) last4
      = backoffRetry (EventSourceError.transport msg) last4
    ∧ retryAfterRetry backoffRetry EventSourceError.streamEnded last5
      = backoffRetry EventSourceError.streamEnded last5 := by
  refine ⟨?_, ?_, ?_, ?_, ?_⟩ <;> simp [retryAfterRetry, h1, h2]

/-- A reconnect rejected with 429 and `Retry-After: 5`. -/
def resp429retryAfter : HttpResponse Nat :=
  ⟨429, some ("5"), Except.ok (""), Except.error ("unused")⟩

/-- A reconnect rejected with 429 and no `Retry-After` header. -/
def resp429bare : HttpResponse Nat :=
  ⟨429, none, Except.ok (""), Except.error ("unused")⟩

/-- A wrapped backoff that always proposes 42 nanoseconds. -/
def constBackoff42 : EventSourceError Nat → Option (Nat × Nat) → Option Nat :=
  fun _ _ => some 42

/-- Witness for C9: with `Retry-After: 5` the reconnect pause is 5
seconds, overriding the wrapped backoff's 42; without the header the
wrapped backoff decides. -/
theorem reconnect_delay_selection_witness :
    resp429retryAfter.retryAfterHeader.bind parseU64 = some 5
    ∧ resp429bare.retryAfterHeader.bind parseU64 = none
    ∧ (retryAfterRetry constBackoff42 (EventSourceError.invalidStatus resp429retryAfter) none
        = some (durationFromSecs 5)
      ∧ retryAfterRetry constBackoff42 (EventSourceError.invalidStatus resp429bare) none
        = constBackoff42 (EventSourceError.invalidStatus resp429bare) none
      ∧ retryAfterRetry constBackoff42 (EventSourceError.invalidContentType resp429retryAfter) none
        = constBackoff42 (EventSourceError.invalidContentType resp429retryAfter) none
      ∧ retryAfterRetry constBackoff42 (EventSourceError.transport ("boom")) none
        = constBackoff42 (EventSourceError.transport ("boom")) none
      ∧ retryAfterRetry constBackoff42 EventSourceError.streamEnded none
        = constBackoff42 EventSourceError.streamEnded none) :=
  ⟨by decide, rfl,
    reconnect_delay_selection constBackoff42 resp429retryAfter resp429bare
      none none none none none 5 ("boom") (by decide) rfl⟩

end AsyncAnthropic
